import Mathlib

/-!
Shallow embedding of the bluetooth proximity lock decision engine
(src/bluetooth_project): the multi-device evaluator and monitor loop of
main_module.py, the single-device variant of main_controller.py, and the
actuator of system_control_module.py. RSSI readings are signed integers;
an absent reading is `none`. Actuator and scanner behaviour that in Python
comes from the outside world (os.system exit codes, raised exceptions) is
passed in explicitly as data, with a raised-and-caught exception modelled by
the branch the `except` handler takes.
-/

/-- config_module.py: LOCK_THRESHOLD. -/
def LOCK_THRESHOLD : Int := -80

/-- config_module.py: UNLOCK_THRESHOLD. -/
def UNLOCK_THRESHOLD : Int := -70

/-- config_module.py: CONSECUTIVE_FAIL_THRESHOLD. -/
def CONSECUTIVE_FAIL_THRESHOLD : Nat := 2

/-- main_module.py TargetDevice dataclass (the scanner handle is elided; a
missing scanner is modelled by `ScanOutcome.noScanner`). -/
structure TargetDevice where
  name : String
  mac : String
  lock_threshold : Int
  unlock_threshold : Int
  consecutive_failures : Nat := 0
  deriving DecidableEq

/-- Loop body of ProximityLockController._evaluate_lock (main_module.py
lines 163-178): on an absent reading the failure counter is incremented and
the device votes lock when the new counter reaches the threshold; on a
present reading the counter resets to zero and the device votes lock when
the reading is strictly below its lock threshold. -/
def evaluate_lock_device (thr : Nat) (d : TargetDevice) (rssi : Option Int) :
    TargetDevice × Bool :=
  match rssi with
  | none =>
      let d := { d with consecutive_failures := d.consecutive_failures + 1 }
      (d, decide (thr ≤ d.consecutive_failures))
  | some r =>
      ({ d with consecutive_failures := 0 }, decide (r < d.lock_threshold))

/-- ProximityLockController._evaluate_lock (main_module.py lines 160-180):
applies the per-device rule to every device in order, or-accumulating the
should_lock flag, and returns the updated device list together with it. -/
def evaluate_lock (thr : Nat) : List TargetDevice → (String → Option Int) →
    List TargetDevice × Bool
  | [], _ => ([], false)
  | d :: ds, m =>
      let r := evaluate_lock_device thr d (m d.name)
      let rest := evaluate_lock thr ds m
      (r.1 :: rest.1, r.2 || rest.2)

/-- Per-device unlock test from ProximityLockController._evaluate_unlock
(main_module.py lines 186-191): an absent reading contributes nothing; a
present reading votes unlock when strictly above the unlock threshold. -/
def evaluate_unlock_device (d : TargetDevice) (rssi : Option Int) : Bool :=
  match rssi with
  | none => false
  | some r => decide (d.unlock_threshold < r)

/-- ProximityLockController._evaluate_unlock (main_module.py lines 183-192):
returns true at the first device whose present reading is strictly above its
unlock threshold, false when no device qualifies. -/
def evaluate_unlock : List TargetDevice → (String → Option Int) → Bool
  | [], _ => false
  | d :: ds, m =>
      if evaluate_unlock_device d (m d.name) then true else evaluate_unlock ds m

/-- system_control_module.py SystemState enum. -/
inductive SystemState where
  | locked
  | unlocked
  | unknown
  deriving DecidableEq

/-- system_control_module.py WindowsSystemController mutable fields. -/
structure WindowsSystemController where
  current_state : SystemState := .unknown
  lock_count : Nat := 0
  unlock_count : Nat := 0
  deriving DecidableEq

/-- WindowsSystemController.lock_system (system_control_module.py lines
50-79): the os.system call is modelled by its outcome, `none` when it raises
(the except handler returns false with state untouched), `some r` for exit
status r; the call reports success exactly when r = 0. -/
def lock_system (osResult : Option Int) (c : WindowsSystemController) :
    WindowsSystemController × Bool :=
  match osResult with
  | none => (c, false)
  | some r =>
      if r = 0 then
        ({ c with current_state := .locked, lock_count := c.lock_count + 1 }, true)
      else (c, false)

/-- WindowsSystemController.wake_system (system_control_module.py lines
81-109): the mouse_event call either raises (the except handler returns
false with state untouched) or succeeds. -/
def wake_system (raisesFlag : Bool) (c : WindowsSystemController) :
    WindowsSystemController × Bool :=
  if raisesFlag then (c, false)
  else
    let c := { c with current_state := .unlocked, unlock_count := c.unlock_count + 1 }
    (c, true)

/-- Outcome of the underlying scan call for one device in
ProximityLockController._scan_device (main_module.py lines 123-141): the
scanner or its get_rssi attribute is missing, the call returns a (possibly
absent) reading, or the call raises. -/
inductive ScanOutcome where
  | noScanner
  | reading (r : Option Int)
  | raises
  deriving DecidableEq

/-- ProximityLockController._scan_device (main_module.py lines 123-141):
yields the RSSI result plus the warning tag logged when an exception is
caught (the warning text names exactly the failing device). -/
def scan_device (name : String) : ScanOutcome → Option Int × Option String
  | .noScanner => (none, none)
  | .reading r => (r, none)
  | .raises => (none, some name)

/-- ProximityLockController._scan_all (main_module.py lines 144-157): one
result entry per input device, keyed by device name. -/
def scan_all (ds : List TargetDevice) (o : String → ScanOutcome) :
    List (String × (Option Int × Option String)) :=
  ds.map fun d => (d.name, scan_device d.name (o d.name))

/-- Engine-level mutable state of main_module.py ProximityLockController:
the device list and the is_locked flag. -/
structure EngineState where
  devices : List TargetDevice
  is_locked : Bool := false
  deriving DecidableEq

/-- ProximityLockController.__init__ (main_module.py line 55): is_locked
starts False. -/
def initEngine (ds : List TargetDevice) : EngineState :=
  { devices := ds, is_locked := false }

/-- Which actuator action one cycle attempted, and whether the actuator
reported success. -/
inductive CycleAction where
  | lockAttempt (ok : Bool)
  | unlockAttempt (ok : Bool)
  | noAction
  deriving DecidableEq

/-- One decide-and-act step of monitor_loop (main_module.py lines 212-226):
when unlocked, a lock vote triggers lock_system and the state commits to
locked only on success; when locked, an unlock vote triggers wake_system and
the state commits to unlocked only on success. Scan results for the cycle
are the rssi map; actuator behaviour is osResult and wakeRaisesFlag. -/
def monitorCycle (thr : Nat) (st : EngineState) (sys : WindowsSystemController)
    (m : String → Option Int) (osResult : Option Int) (wakeRaisesFlag : Bool) :
    EngineState × WindowsSystemController × CycleAction :=
  if st.is_locked then
    if evaluate_unlock st.devices m then
      let s := wake_system wakeRaisesFlag sys
      if s.2 then ({ st with is_locked := false }, s.1, .unlockAttempt true)
      else (st, s.1, .unlockAttempt false)
    else (st, sys, .noAction)
  else
    let r := evaluate_lock thr st.devices m
    if r.2 then
      let s := lock_system osResult sys
      if s.2 then ({ devices := r.1, is_locked := true }, s.1, .lockAttempt true)
      else ({ devices := r.1, is_locked := false }, s.1, .lockAttempt false)
    else ({ devices := r.1, is_locked := false }, sys, .noAction)

/-- Inputs to one monitor cycle: the per-device scan results and the
actuator outcomes for that cycle. -/
structure CycleInput where
  rssiMap : String → Option Int
  osResult : Option Int
  wakeRaisesFlag : Bool

/-- Iterated monitor cycles (the monitor_loop body repeated), recording the
attempted action of each cycle in order. -/
def runCycles (thr : Nat) : EngineState → WindowsSystemController →
    List CycleInput → List CycleAction
  | _, _, [] => []
  | st, sys, c :: cs =>
      let r := monitorCycle thr st sys c.rssiMap c.osResult c.wakeRaisesFlag
      r.2.2 :: runCycles thr r.1 r.2.1 cs

/-- main_controller.py ProximityLockController._should_lock (lines 163-176):
single-device variant; returns the updated consecutive_failures value and
the lock decision. -/
def should_lock (lockThr : Int) (failThr : Nat) (cf : Nat) (rssi : Option Int) :
    Nat × Bool :=
  match rssi with
  | none =>
      let cf := cf + 1
      if failThr ≤ cf then (cf, true) else (cf, false)
  | some r =>
      (0, decide (r < lockThr))

/-- main_controller.py ProximityLockController._should_unlock (lines
179-186): single-device variant of the unlock decision. -/
def should_unlock (unlockThr : Int) (rssi : Option Int) : Bool :=
  match rssi with
  | none => false
  | some r => decide (unlockThr < r)

/-- Device state after j consecutive absent-reading evaluations of the
per-device lock rule. -/
def iterateAbsent (thr : Nat) (d : TargetDevice) : Nat → TargetDevice
  | 0 => d
  | j + 1 => (evaluate_lock_device thr (iterateAbsent thr d j) none).1

/-- The device's lock-vote contribution on its j-th consecutive absent
cycle (j counted from 1). -/
def absentVoteAt (thr : Nat) (d : TargetDevice) (j : Nat) : Bool :=
  (evaluate_lock_device thr (iterateAbsent thr d (j - 1)) none).2

/-! Helper lemmas about the evaluators and the cycle step. -/

lemma iterateAbsent_cf (thr : Nat) (d : TargetDevice) (j : Nat) :
    (iterateAbsent thr d j).consecutive_failures = d.consecutive_failures + j := by
  induction j with
  | zero => rfl
  | succ j ih =>
      show (evaluate_lock_device thr (iterateAbsent thr d j) none).1.consecutive_failures = _
      simp only [evaluate_lock_device, ih]
      omega

lemma evaluate_lock_fst (thr : Nat) (ds : List TargetDevice)
    (m : String → Option Int) :
    (evaluate_lock thr ds m).1 =
      ds.map fun d => (evaluate_lock_device thr d (m d.name)).1 := by
  induction ds with
  | nil => rfl
  | cons d ds ih => simp only [evaluate_lock, List.map_cons, ih]

lemma evaluate_unlock_eq_any (ds : List TargetDevice) (m : String → Option Int) :
    evaluate_unlock ds m = ds.any fun d => evaluate_unlock_device d (m d.name) := by
  induction ds with
  | nil => rfl
  | cons d ds ih =>
      simp only [evaluate_unlock, List.any_cons, ih]
      cases evaluate_unlock_device d (m d.name) <;> simp

lemma evaluate_unlock_device_eq_true (d : TargetDevice) (r : Option Int) :
    evaluate_unlock_device d r = true ↔ ∃ v, r = some v ∧ d.unlock_threshold < v := by
  cases r <;> simp [evaluate_unlock_device]

lemma monitorCycle_unlocked_novote (thr : Nat) (st : EngineState)
    (sys : WindowsSystemController) (m : String → Option Int)
    (osr : Option Int) (wrf : Bool) (hu : st.is_locked = false)
    (hv : (evaluate_lock thr st.devices m).2 = false) :
    monitorCycle thr st sys m osr wrf =
      ({ devices := (evaluate_lock thr st.devices m).1, is_locked := false },
       sys, .noAction) := by
  unfold monitorCycle
  rw [hu]
  simp [hv]

lemma monitorCycle_unlocked_vote (thr : Nat) (st : EngineState)
    (sys : WindowsSystemController) (m : String → Option Int)
    (osr : Option Int) (wrf : Bool) (hu : st.is_locked = false)
    (hv : (evaluate_lock thr st.devices m).2 = true) :
    monitorCycle thr st sys m osr wrf =
      ({ devices := (evaluate_lock thr st.devices m).1,
         is_locked := (lock_system osr sys).2 },
       (lock_system osr sys).1, .lockAttempt (lock_system osr sys).2) := by
  unfold monitorCycle
  rw [hu]
  simp only [Bool.false_eq_true, if_false, hv, if_true]
  cases hs : (lock_system osr sys).2 <;> simp [hs]

lemma monitorCycle_locked_novote (thr : Nat) (st : EngineState)
    (sys : WindowsSystemController) (m : String → Option Int)
    (osr : Option Int) (wrf : Bool) (hu : st.is_locked = true)
    (hv : evaluate_unlock st.devices m = false) :
    monitorCycle thr st sys m osr wrf = (st, sys, .noAction) := by
  unfold monitorCycle
  rw [hu]
  simp [hv]

lemma monitorCycle_locked_vote (thr : Nat) (st : EngineState)
    (sys : WindowsSystemController) (m : String → Option Int)
    (osr : Option Int) (wrf : Bool) (hu : st.is_locked = true)
    (hv : evaluate_unlock st.devices m = true) :
    monitorCycle thr st sys m osr wrf =
      (if (wake_system wrf sys).2 then { st with is_locked := false } else st,
       (wake_system wrf sys).1, .unlockAttempt (wake_system wrf sys).2) := by
  unfold monitorCycle
  rw [hu]
  simp only [if_true, hv]
  cases hs : (wake_system wrf sys).2 <;> simp [hs]

/-! Concrete instances used by witnesses and counterexamples. -/

/-- A phone-like device at the default thresholds with a zero counter. -/
def devPhone : TargetDevice :=
  { name := "p", mac := "m1", lock_threshold := -80, unlock_threshold := -70,
    consecutive_failures := 0 }

/-- A headphones-like device at the default thresholds with a zero counter. -/
def devHead : TargetDevice :=
  { name := "h", mac := "m2", lock_threshold := -80, unlock_threshold := -70,
    consecutive_failures := 0 }

/-- A cycle map where the phone is absent and every other device reads -85. -/
def mapAbsentPhone : String → Option Int :=
  fun n => if n = "p" then none else some (-85)

/-- A cycle map where every device reads -75, inside the dead zone. -/
def mapDeadZone : String → Option Int := fun _ => some (-75)

/-- Engine state after one cycle from the initial state on mapAbsentPhone
with a succeeding actuator: locked, with the phone counter at 1. -/
def lockedAfterOne : EngineState :=
  (monitorCycle 2 (initEngine [devPhone, devHead]) {} mapAbsentPhone
    (some 0) false).1

/-- Two cycle inputs: a far reading that locks, then a near reading that
unlocks, both with succeeding actuators. -/
def csLockThenUnlock : List CycleInput :=
  [{ rssiMap := fun _ => some (-85), osResult := some 0, wakeRaisesFlag := false },
   { rssiMap := fun _ => some (-60), osResult := some 0, wakeRaisesFlag := false }]

/-- Scan outcomes where the phone's scan raises and every other scan returns
a reading of -60. -/
def scanOutOneRaising : String → ScanOutcome :=
  fun n => if n = "p" then .raises else .reading (some (-60))

/-! Claim theorems. -/

/-- Claim C1: starting from a zero failure counter, over consecutive
evaluated cycles with an absent reading the device's counter after j cycles
is j, and the device contributes a lock vote on its j-th consecutive absent
cycle exactly when j has reached the failure threshold — so the vote fires
on the threshold-reaching cycle and every consecutive absent cycle after it,
and never before. The last conjunct ties the per-device contribution to the
_evaluate_lock aggregate on a singleton device list. -/
theorem absent_debounce_vote_iff_threshold (thr j : Nat) (d : TargetDevice)
    (h0 : d.consecutive_failures = 0) (hj : 1 ≤ j) :
    (iterateAbsent thr d j).consecutive_failures = j ∧
    (absentVoteAt thr d j = true ↔ thr ≤ j) ∧
    absentVoteAt thr d j =
      (evaluate_lock thr [iterateAbsent thr d (j - 1)] (fun _ => none)).2 := by
  refine ⟨?_, ?_, ?_⟩
  · rw [iterateAbsent_cf, h0, Nat.zero_add]
  · have hcf := iterateAbsent_cf thr d (j - 1)
    rw [h0, Nat.zero_add] at hcf
    unfold absentVoteAt
    simp only [evaluate_lock_device, hcf, decide_eq_true_eq]
    omega
  · simp [absentVoteAt, evaluate_lock]

/-- Witness for C1 at the configured threshold 2: on the second consecutive
absent cycle the device votes lock. -/
theorem absent_debounce_vote_example :
    (1 : Nat) ≤ 2 ∧ absentVoteAt 2 devPhone 2 = true := by
  refine ⟨by decide, ?_⟩
  have h := absent_debounce_vote_iff_threshold 2 2 devPhone rfl (by decide)
  exact h.2.1.mpr (by decide)

/-- Claim C4: a present reading strictly inside the dead zone between the
two thresholds contributes neither a lock vote nor an unlock vote and resets
the device's failure counter to zero, both at the per-device rule and for
the aggregate evaluators on that device alone. -/
theorem dead_zone_no_votes_and_reset (thr : Nat) (d : TargetDevice) (r : Int)
    (hlu : d.lock_threshold < d.unlock_threshold)
    (hl : d.lock_threshold < r) (hu : r < d.unlock_threshold) :
    evaluate_lock_device thr d (some r) =
      ({ d with consecutive_failures := 0 }, false) ∧
    evaluate_unlock_device d (some r) = false ∧
    evaluate_lock thr [d] (fun _ => some r) =
      ([{ d with consecutive_failures := 0 }], false) ∧
    evaluate_unlock [d] (fun _ => some r) = false := by
  have hnl : ¬(r < d.lock_threshold) := not_lt.mpr (le_of_lt hl)
  have hnu : ¬(d.unlock_threshold < r) := not_lt.mpr (le_of_lt hu)
  refine ⟨?_, ?_, ?_, ?_⟩
  · simp [evaluate_lock_device, hnl]
  · simp [evaluate_unlock_device, hnu]
  · simp [evaluate_lock, evaluate_lock_device, hnl]
  · simp [evaluate_unlock, evaluate_unlock_device, hnu]

/-- Witness for C4 at the configured thresholds with reading -75. -/
theorem dead_zone_example :
    evaluate_lock 2 [devPhone] (fun _ => some (-75)) = ([devPhone], false) ∧
    evaluate_unlock [devPhone] (fun _ => some (-75)) = false := by
  have h := dead_zone_no_votes_and_reset 2 devPhone (-75)
    (by decide) (by decide) (by decide)
  exact ⟨h.2.2.1.trans (by decide), h.2.2.2⟩

/-- Claim C5: the aggregate unlock decision of _evaluate_unlock is true
exactly when some device has a present reading strictly above that device's
own unlock threshold; no other device's reading, absence or failure counter
enters the characterisation. -/
theorem should_unlock_iff_exists_above_threshold
    (ds : List TargetDevice) (m : String → Option Int) :
    evaluate_unlock ds m = true ↔
      ∃ d ∈ ds, ∃ v, m d.name = some v ∧ d.unlock_threshold < v := by
  rw [evaluate_unlock_eq_any, List.any_eq_true]
  constructor
  · rintro ⟨d, hd, hv⟩
    exact ⟨d, hd, (evaluate_unlock_device_eq_true d (m d.name)).mp hv⟩
  · rintro ⟨d, hd, hv⟩
    exact ⟨d, hd, (evaluate_unlock_device_eq_true d (m d.name)).mpr hv⟩

/-- Claim C9: both threshold comparisons are strict, so any present reading
in the closed interval from lock_threshold to unlock_threshold — the
endpoints included — draws no lock vote and no unlock vote, in the
multi-device evaluators and in the single-device variant alike. -/
theorem threshold_comparisons_strict (thr cf : Nat) (d : TargetDevice)
    (r : Int) (hl : d.lock_threshold ≤ r) (hu : r ≤ d.unlock_threshold) :
    (evaluate_lock_device thr d (some r)).2 = false ∧
    evaluate_unlock_device d (some r) = false ∧
    (should_lock d.lock_threshold thr cf (some r)).2 = false ∧
    should_unlock d.unlock_threshold (some r) = false := by
  have hnl : ¬(r < d.lock_threshold) := not_lt.mpr hl
  have hnu : ¬(d.unlock_threshold < r) := not_lt.mpr hu
  refine ⟨?_, ?_, ?_, ?_⟩
  · simp [evaluate_lock_device, hnl]
  · simp [evaluate_unlock_device, hnu]
  · simp [should_lock, hnl]
  · simp [should_unlock, hnu]

/-- Witness for C9 at the boundary: a reading exactly equal to the lock
threshold contributes no vote of either kind. -/
theorem threshold_boundary_example :
    (evaluate_lock_device 2 devPhone (some (-80))).2 = false ∧
    evaluate_unlock_device devPhone (some (-80)) = false := by
  have h := threshold_comparisons_strict 2 0 devPhone (-80) (by decide) (by decide)
  exact ⟨h.1, h.2.1⟩

/-- Claim C10: on a one-element device list the multi-device evaluators of
main_module.py and the single-device decision functions of
main_controller.py agree, for every optional reading and starting counter:
same lock vote, same resulting counter value, same unlock vote. -/
theorem single_multi_variant_equivalence (thr : Nat) (d : TargetDevice)
    (r : Option Int) :
    (evaluate_lock thr [d] (fun _ => r)).2 =
      (should_lock d.lock_threshold thr d.consecutive_failures r).2 ∧
    (evaluate_lock thr [d] (fun _ => r)).1.map TargetDevice.consecutive_failures =
      [(should_lock d.lock_threshold thr d.consecutive_failures r).1] ∧
    evaluate_unlock [d] (fun _ => r) = should_unlock d.unlock_threshold r := by
  refine ⟨?_, ?_, ?_⟩
  · cases r with
    | none =>
        simp only [evaluate_lock, evaluate_lock_device, should_lock, Bool.or_false]
        by_cases h : thr ≤ d.consecutive_failures + 1 <;> simp [h]
    | some v =>
        simp [evaluate_lock, evaluate_lock_device, should_lock]
  · cases r with
    | none =>
        simp only [evaluate_lock, evaluate_lock_device, should_lock, List.map_cons]
        by_cases h : thr ≤ d.consecutive_failures + 1 <;> simp [h]
    | some v =>
        simp [evaluate_lock, evaluate_lock_device, should_lock]
  · cases r with
    | none => simp [evaluate_unlock, evaluate_unlock_device, should_unlock]
    | some v =>
        simp only [evaluate_unlock, evaluate_unlock_device, should_unlock]
        by_cases h : d.unlock_threshold < v <;> simp [h]

/-- A cycle map where every device reads -85, below the lock threshold. -/
def mapFar : String → Option Int := fun _ => some (-85)

/-- A cycle map where every device reads -60, above the unlock threshold. -/
def mapNear : String → Option Int := fun _ => some (-60)

/-- A locked engine holding a single phone device. -/
def stLockedOne : EngineState := { devices := [devPhone], is_locked := true }

lemma monitorCycle_unlocked_devices (thr : Nat) (st : EngineState)
    (sys : WindowsSystemController) (m : String → Option Int)
    (osr : Option Int) (wrf : Bool) (hu : st.is_locked = false) :
    (monitorCycle thr st sys m osr wrf).1.devices =
      (evaluate_lock thr st.devices m).1 := by
  cases hv : (evaluate_lock thr st.devices m).2 with
  | false => rw [monitorCycle_unlocked_novote thr st sys m osr wrf hu hv]
  | true =>
      rw [monitorCycle_unlocked_vote thr st sys m osr wrf hu hv]

/-- Claim C2 counterexample: with failure threshold 2, on cycle 1 the phone
is absent (counter becomes 1) while the headphones read -85, so the engine
locks. Cycle 2 runs while Locked with the phone present at -75, yet after
that cycle the phone's counter is still 1, not 0: while Locked the lock
evaluator never runs, so a present reading does not reset the counter. -/
theorem present_reading_counter_not_reset_while_locked :
    lockedAfterOne.is_locked = true ∧
    mapDeadZone "p" = some (-75) ∧
    (monitorCycle 2 lockedAfterOne {} mapDeadZone (some 0) false).1.devices.map
      TargetDevice.consecutive_failures = [1, 0] := by decide

/-- Claim C2 amended: on any cycle evaluated while the engine is Unlocked,
a device producing a present reading has its consecutive_failures counter
equal to zero after that cycle's evaluation. (While Locked the evaluator
does not run and all counters are left unchanged.) -/
theorem present_reading_resets_counter_when_unlocked
    (thr : Nat) (st : EngineState) (sys : WindowsSystemController)
    (m : String → Option Int) (osr : Option Int) (wrf : Bool)
    (i : Nat) (d : TargetDevice) (r : Int)
    (hu : st.is_locked = false)
    (hd : st.devices.get? i = some d) (hr : m d.name = some r) :
    ∃ e, (monitorCycle thr st sys m osr wrf).1.devices.get? i = some e ∧
      e.consecutive_failures = 0 := by
  rw [monitorCycle_unlocked_devices thr st sys m osr wrf hu, evaluate_lock_fst]
  refine ⟨(evaluate_lock_device thr d (m d.name)).1, ?_, ?_⟩
  · rw [List.get?_map, hd]
    rfl
  · rw [hr]
    rfl

/-- Witness for the amended C2: an unlocked cycle with a present dead-zone
reading leaves the device's counter at zero. -/
theorem present_reading_resets_counter_example :
    ∃ e, (monitorCycle 2 (initEngine [devPhone]) {} mapDeadZone
        (some 0) false).1.devices.get? 0 = some e ∧
      e.consecutive_failures = 0 :=
  present_reading_resets_counter_when_unlocked 2 (initEngine [devPhone]) {}
    mapDeadZone (some 0) false 0 devPhone (-75) rfl (by decide) (by decide)


/-- Claim C3: in monitor_loop the lock state changes exactly when the
cycle's attempted actuator action reported success; lock_system and
wake_system convert a raised exception into a false return with the
controller untouched; and after a failed attempt the state is unchanged and
a persisting vote on the next cycle re-triggers the same attempt. -/
theorem transition_gated_on_actuator_success
    (thr : Nat) (st : EngineState) (sys : WindowsSystemController)
    (m m2 : String → Option Int) (osr osr2 : Option Int) (wrf wrf2 : Bool) :
    ((monitorCycle thr st sys m osr wrf).1.is_locked ≠ st.is_locked ↔
      ((monitorCycle thr st sys m osr wrf).2.2 = .lockAttempt true ∨
       (monitorCycle thr st sys m osr wrf).2.2 = .unlockAttempt true)) ∧
    (∀ c, lock_system none c = (c, false)) ∧
    (∀ c, wake_system true c = (c, false)) ∧
    ((monitorCycle thr st sys m osr wrf).2.2 = .lockAttempt false →
      (monitorCycle thr st sys m osr wrf).1.is_locked = st.is_locked ∧
      ((evaluate_lock thr (monitorCycle thr st sys m osr wrf).1.devices m2).2 = true →
        ∃ b, (monitorCycle thr (monitorCycle thr st sys m osr wrf).1
                (monitorCycle thr st sys m osr wrf).2.1 m2 osr2 wrf2).2.2 =
              .lockAttempt b)) ∧
    ((monitorCycle thr st sys m osr wrf).2.2 = .unlockAttempt false →
      (monitorCycle thr st sys m osr wrf).1.is_locked = st.is_locked ∧
      (evaluate_unlock (monitorCycle thr st sys m osr wrf).1.devices m2 = true →
        ∃ b, (monitorCycle thr (monitorCycle thr st sys m osr wrf).1
                (monitorCycle thr st sys m osr wrf).2.1 m2 osr2 wrf2).2.2 =
              .unlockAttempt b)) := by
  cases hL : st.is_locked with
  | false =>
      cases hv : (evaluate_lock thr st.devices m).2 with
      | false =>
          rw [monitorCycle_unlocked_novote thr st sys m osr wrf hL hv]
          refine ⟨by simp [hL], fun c => rfl, fun c => rfl, ?_, ?_⟩
          · intro h
            simp at h
          · intro h
            simp at h
      | true =>
          rw [monitorCycle_unlocked_vote thr st sys m osr wrf hL hv]
          refine ⟨?_, fun c => rfl, fun c => rfl, ?_, ?_⟩
          · cases hs : (lock_system osr sys).2 <;> simp
          · intro h
            cases hs : (lock_system osr sys).2 with
            | true => rw [hs] at h; simp at h
            | false =>
                refine ⟨rfl, ?_⟩
                intro hv2
                rw [monitorCycle_unlocked_vote thr _ _ m2 osr2 wrf2 rfl hv2]
                exact ⟨_, rfl⟩
          · intro h
            simp at h
  | true =>
      cases hv : evaluate_unlock st.devices m with
      | false =>
          rw [monitorCycle_locked_novote thr st sys m osr wrf hL hv]
          refine ⟨by simp [hL], fun c => rfl, fun c => rfl, ?_, ?_⟩
          · intro h
            simp at h
          · intro h
            simp at h
      | true =>
          rw [monitorCycle_locked_vote thr st sys m osr wrf hL hv]
          refine ⟨?_, fun c => rfl, fun c => rfl, ?_, ?_⟩
          · cases hs : (wake_system wrf sys).2 <;> simp [hL]
          · intro h
            simp at h
          · intro h
            cases hs : (wake_system wrf sys).2 with
            | true => rw [hs] at h; simp at h
            | false =>
                simp only [Bool.false_eq_true, if_false]
                refine ⟨hL, ?_⟩
                intro hv2
                rw [monitorCycle_locked_vote thr st _ m2 osr2 wrf2 hL hv2]
                exact ⟨_, rfl⟩

/-- Witness for C3: a lock vote with a failing actuator (exit status 1)
leaves the engine unlocked, and the persisting vote re-triggers a lock
attempt on the following cycle. -/
theorem transition_gated_example :
    (monitorCycle 2 (initEngine [devPhone]) {} mapFar (some 1) false).1.is_locked
        = (initEngine [devPhone]).is_locked ∧
    ∃ b, (monitorCycle 2 (monitorCycle 2 (initEngine [devPhone]) {} mapFar
            (some 1) false).1
          (monitorCycle 2 (initEngine [devPhone]) {} mapFar (some 1) false).2.1
          mapFar (some 0) false).2.2 = CycleAction.lockAttempt b := by
  have h := transition_gated_on_actuator_success 2 (initEngine [devPhone]) {}
    mapFar mapFar (some 1) (some 0) false false
  have h4 := h.2.2.2.1 (by decide)
  exact ⟨h4.1, h4.2 (by decide)⟩

/-- Claim C6: each monitor cycle attempts at most one actuator action — a
lock attempt only from the Unlocked state, an unlock attempt only from the
Locked state — and the lock state changes within a cycle only when that
single action was attempted, so it never flips twice in one cycle. -/
theorem at_most_one_action_per_cycle
    (thr : Nat) (st : EngineState) (sys : WindowsSystemController)
    (m : String → Option Int) (osr : Option Int) (wrf : Bool) :
    (∀ b, (monitorCycle thr st sys m osr wrf).2.2 = .lockAttempt b →
      st.is_locked = false) ∧
    (∀ b, (monitorCycle thr st sys m osr wrf).2.2 = .unlockAttempt b →
      st.is_locked = true) ∧
    ((monitorCycle thr st sys m osr wrf).1.is_locked ≠ st.is_locked →
      (monitorCycle thr st sys m osr wrf).2.2 ≠ .noAction) := by
  cases hL : st.is_locked with
  | false =>
      cases hv : (evaluate_lock thr st.devices m).2 with
      | false =>
          rw [monitorCycle_unlocked_novote thr st sys m osr wrf hL hv]
          refine ⟨fun b h => rfl, fun b h => by simp at h, fun h => by simp at h⟩
      | true =>
          rw [monitorCycle_unlocked_vote thr st sys m osr wrf hL hv]
          refine ⟨fun b h => rfl, fun b h => by simp at h, fun h => by simp⟩
  | true =>
      cases hv : evaluate_unlock st.devices m with
      | false =>
          rw [monitorCycle_locked_novote thr st sys m osr wrf hL hv]
          refine ⟨fun b h => by simp at h, fun b h => rfl, fun h => ?_⟩
          exact absurd hL h
      | true =>
          rw [monitorCycle_locked_vote thr st sys m osr wrf hL hv]
          refine ⟨fun b h => by simp at h, fun b h => rfl, fun h => by simp⟩

/-- Witness for C6: an unlock attempt in a concrete cycle implies the state
before the cycle was Locked. -/
theorem at_most_one_action_example : stLockedOne.is_locked = true :=
  (at_most_one_action_per_cycle 2 stLockedOne {} mapNear (some 0) false).2.1
    true (by decide)

/-- Claim C7: the scan phase returns exactly one result per input device,
each depending only on that device's own scan outcome, and a raised scan
exception is caught at that device's scope and becomes an absent reading
with an error tag naming exactly that device. -/
theorem scan_all_per_device_containment
    (ds : List TargetDevice) (o : String → ScanOutcome) (hne : ds ≠ []) :
    (scan_all ds o).length = ds.length ∧
    (∀ i d, ds.get? i = some d →
      (scan_all ds o).get? i = some (d.name, scan_device d.name (o d.name))) ∧
    (∀ d : TargetDevice, o d.name = .raises →
      scan_device d.name (o d.name) = (none, some d.name)) := by
  refine ⟨by simp [scan_all], ?_, ?_⟩
  · intro i d hd
    rw [scan_all, List.get?_map, hd]
    rfl
  · intro d h
    rw [h]
    rfl

/-- Witness for C7: with the phone's scan raising and the headphones
reading -60, the phone's entry is absent with the phone's error tag and the
headphones' entry is unaffected. -/
theorem scan_all_example :
    (scan_all [devPhone, devHead] scanOutOneRaising).get? 0 =
      some ("p", (none, some "p")) ∧
    (scan_all [devPhone, devHead] scanOutOneRaising).get? 1 =
      some ("h", (some (-60), none)) := by
  have h := scan_all_per_device_containment [devPhone, devHead]
    scanOutOneRaising (by decide)
  exact ⟨(h.2.1 0 devPhone (by decide)).trans (by decide),
         (h.2.1 1 devHead (by decide)).trans (by decide)⟩

lemma unlocked_step_cases (thr : Nat) (st : EngineState)
    (sys : WindowsSystemController) (m : String → Option Int)
    (osr : Option Int) (wrf : Bool) (hu : st.is_locked = false) :
    ((monitorCycle thr st sys m osr wrf).2.2 = .lockAttempt true ∧
     (monitorCycle thr st sys m osr wrf).1.is_locked = true) ∨
    ((monitorCycle thr st sys m osr wrf).1.is_locked = false ∧
     ∀ b, (monitorCycle thr st sys m osr wrf).2.2 ≠ .unlockAttempt b) := by
  cases hv : (evaluate_lock thr st.devices m).2 with
  | false =>
      right
      rw [monitorCycle_unlocked_novote thr st sys m osr wrf hu hv]
      exact ⟨rfl, fun b h => by simp at h⟩
  | true =>
      rw [monitorCycle_unlocked_vote thr st sys m osr wrf hu hv]
      cases hs : (lock_system osr sys).2 with
      | true => left; exact ⟨rfl, rfl⟩
      | false => right; exact ⟨rfl, fun b h => by simp at h⟩

lemma no_unlock_before_lock_aux (thr : Nat) :
    ∀ (cs : List CycleInput) (st : EngineState) (sys : WindowsSystemController),
      st.is_locked = false →
      ∀ i b, (runCycles thr st sys cs).get? i = some (.unlockAttempt b) →
        ∃ j, j < i ∧ (runCycles thr st sys cs).get? j = some (.lockAttempt true) := by
  intro cs
  induction cs with
  | nil =>
      intro st sys hu i b h
      simp [runCycles] at h
  | cons c cs ih =>
      intro st sys hu i b h
      have hrun : runCycles thr st sys (c :: cs) =
          (monitorCycle thr st sys c.rssiMap c.osResult c.wakeRaisesFlag).2.2 ::
          runCycles thr
            (monitorCycle thr st sys c.rssiMap c.osResult c.wakeRaisesFlag).1
            (monitorCycle thr st sys c.rssiMap c.osResult c.wakeRaisesFlag).2.1
            cs := rfl
      rcases unlocked_step_cases thr st sys c.rssiMap c.osResult
        c.wakeRaisesFlag hu with ⟨ha, hl⟩ | ⟨hl, hna⟩
      · cases i with
        | zero =>
            rw [hrun] at h
            simp only [List.get?_cons_zero, Option.some.injEq] at h
            rw [ha] at h
            simp at h
        | succ i =>
            refine ⟨0, Nat.succ_pos i, ?_⟩
            rw [hrun]
            simp [ha]
      · cases i with
        | zero =>
            rw [hrun] at h
            simp only [List.get?_cons_zero, Option.some.injEq] at h
            exact absurd h (hna b)
        | succ i =>
            rw [hrun] at h
            simp only [List.get?_cons_succ] at h
            obtain ⟨j, hj, hjh⟩ := ih _ _ hl i b h
            refine ⟨j + 1, by omega, ?_⟩
            rw [hrun]
            simpa using hjh

/-- Claim C8: from the initial pre-first-cycle state the engine is treated
as Unlocked: along any sequence of cycles, an unlock attempt at position i
is preceded by a successful lock attempt at some earlier position, so the
first attempted transition of any run is a lock. -/
theorem no_unlock_before_first_successful_lock
    (thr : Nat) (ds : List TargetDevice) (sys : WindowsSystemController)
    (cs : List CycleInput) (i : Nat) (b : Bool)
    (h : (runCycles thr (initEngine ds) sys cs).get? i =
      some (.unlockAttempt b)) :
    ∃ j, j < i ∧ (runCycles thr (initEngine ds) sys cs).get? j =
      some (.lockAttempt true) :=
  no_unlock_before_lock_aux thr cs (initEngine ds) sys rfl i b h

/-- Witness for C8: in the two-cycle run that locks and then unlocks, the
unlock attempt at position 1 is preceded by the successful lock at 0. -/
theorem no_unlock_before_lock_example :
    ∃ j, j < 1 ∧ (runCycles 2 (initEngine [devPhone]) {} csLockThenUnlock).get? j
      = some (.lockAttempt true) :=
  no_unlock_before_first_successful_lock 2 [devPhone] {} csLockThenUnlock 1 true
    (by decide)
